import Mathlib

/-!
Shallow embedding of pbojinov/heightmap-face (src/App.tsx).

The application captures a webcam frame, detects a face, builds a head-mask
path from the detection box and jaw-outline landmarks, fills it, converts
in-mask pixels to grayscale (out-of-mask pixels to black), derives a
normalized height field (red channel / 255), and renders the field as a
wireframe mesh whose vertex depth is the field entry times 2.

Pixels are modelled with exact naturals (Uint8ClampedArray channels) and
heights with exact rationals. The only floating step that changes a value
observably is the store of the grayscale average (r+g+b)/3 into the 8-bit
clamped channel: the sum is at most 765 so the clamp never engages, and the
round-to-nearest never meets a tie (n/3 is never a half-integer, and the
float64 evaluation of n/3 is far too close to n/3 to cross a half-integer
boundary), so the stored value equals round(n/3) = (2n+3)/6 exactly.
-/

/-- A 2D landmark point (face-api.js `Point`), exact coordinates. -/
structure Point where
  x : ℚ
  y : ℚ
deriving DecidableEq, Repr

/-- A detection bounding box (face-api.js `Box`). -/
structure Box where
  x : ℚ
  y : ℚ
  width : ℚ
  height : ℚ
deriving DecidableEq, Repr

/-- The detection result used by `captureImage`: the face box and the
jaw-outline landmarks (`landmarks.getJawOutline()`). -/
structure Detection where
  box : Box
  jawOutline : List Point
deriving DecidableEq, Repr

/-- One RGBA pixel of an ImageData buffer; channels are 8-bit clamped
values, modelled as naturals (≤ 255 where it matters, stated as hypotheses). -/
structure RGBA where
  r : ℕ
  g : ℕ
  b : ℕ
  a : ℕ
deriving DecidableEq, Repr

/-- A canvas path command, as issued by `captureImage` on the face canvas
context (moveTo / quadraticCurveTo / lineTo; closePath is implicit at the
end of the command list). -/
inductive PathCmd where
  | moveTo (p : Point)
  | quadTo (c p : Point)
  | lineTo (p : Point)
deriving DecidableEq, Repr

/-- Horizontal envelope scale, `const scaleX = 1.4` (App.tsx line 123). -/
def scaleX : ℚ := 1.4

/-- Vertical envelope scale, `const scaleY = 1.6` (App.tsx line 124). -/
def scaleY : ℚ := 1.6

/-- The head-mask path construction of `captureImage` (App.tsx lines
106-171). Accessing `jawLine[jawLine.length - 1].x` on an empty jaw outline
throws a TypeError in the source; that is modelled as `Except.error ()`.
The jaw loop `for (let i = jawLine.length - 2; i >= 0; i--)` emits
`lineTo jawLine[i]`, i.e. the jaw outline without its last point,
reversed. -/
def buildMaskPath (det : Detection) : Except Unit (List PathCmd) :=
  let faceBox := det.box
  let jawLine := det.jawOutline
  match jawLine.getLast? with
  | none => .error ()
  | some jawLast =>
    let centerX := faceBox.x + faceBox.width / 2
    let centerY := faceBox.y + faceBox.height / 2
    let extendedWidth := faceBox.width * scaleX
    let extendedHeight := faceBox.height * scaleY
    let topY := faceBox.y - (extendedHeight - faceBox.height)
    .ok ([PathCmd.moveTo ⟨faceBox.x - extendedWidth * 0.2, centerY⟩,
      PathCmd.quadTo ⟨faceBox.x - extendedWidth * 0.1, topY - extendedHeight * 0.1⟩
        ⟨centerX, topY - extendedHeight * 0.2⟩,
      PathCmd.quadTo ⟨faceBox.x + faceBox.width + extendedWidth * 0.1, topY - extendedHeight * 0.1⟩
        ⟨faceBox.x + faceBox.width + extendedWidth * 0.2, centerY⟩,
      PathCmd.quadTo ⟨faceBox.x + faceBox.width + extendedWidth * 0.1,
          faceBox.y + faceBox.height + extendedHeight * 0.1⟩ jawLast]
      ++ jawLine.dropLast.reverse.map PathCmd.lineTo
      ++ [PathCmd.quadTo ⟨faceBox.x - extendedWidth * 0.1,
            faceBox.y + faceBox.height + extendedHeight * 0.1⟩
          ⟨faceBox.x - extendedWidth * 0.2, centerY⟩])

/-- Round-to-nearest of n/3 for a natural n: the exact value stored by
`data[i] = (data[i] + data[i+1] + data[i+2]) / 3` into the Uint8ClampedArray
(sum ≤ 765, so no clamping; ties never occur for thirds). -/
def clampRound3 (n : ℕ) : ℕ := (2 * n + 3) / 6

/-- One iteration of the masking loop (App.tsx lines 180-193): a pixel whose
face-mask red channel is exactly 255 is replaced by its grayscale average;
any other pixel is set to black. Alpha is untouched. -/
def maskPixel (maskR : ℕ) (p : RGBA) : RGBA :=
  if maskR = 255 then
    let avg := clampRound3 (p.r + p.g + p.b)
    ⟨avg, avg, avg, p.a⟩
  else
    ⟨0, 0, 0, p.a⟩

/-- The whole masking loop: the snapshot pixels and the face-mask pixels are
walked in lockstep (both buffers have length width*height). -/
def applyMask (faceMask : List ℕ) (data : List RGBA) : List RGBA :=
  List.zipWith maskPixel faceMask data

/-- Height-field derivation (App.tsx lines 199-202):
`heightMapData[i / 4] = data[i] / 255`, one scalar per pixel, taken from the
red channel of the masked image, in the buffer's row-major order. -/
def heightField (data : List RGBA) : List ℚ :=
  data.map (fun p => (p.r : ℚ) / 255)

/-- The user-facing message set when models are not loaded (App.tsx line 60). -/
def stillLoadingMsg : String :=
  "Face detection models are still loading. Please wait."

/-- The user-facing message set when detection returns no face (App.tsx line 96). -/
def noFaceMsg : String :=
  "No face detected. Please ensure your face is visible in the camera."

/-- The user-facing message set by the catch block (App.tsx line 210). -/
def captureErrMsg : String :=
  "An error occurred during image capture. Please check the console for details."

/-- The component state touched by `captureImage`: `imageData` (the snapshot
published via `canvas.toDataURL()`, modelled as the masked pixel buffer),
`heightMap`, `modelsLoaded`, and `error`. -/
structure AppState where
  imageData : Option (List RGBA)
  heightMap : Option (List ℚ)
  modelsLoaded : Bool
  error : Option String

/-- The environment of one `captureImage` call: whether the three refs are
non-null, whether both 2d contexts were obtained, the video's native
dimensions, the snapshot pixels, the outcome of the awaited detection call
(`Except.error`: the promise rejected; `.ok none`: no face; `.ok (some d)`:
a face with landmarks), and the canvas rasterizer that turns the filled mask
path into the face-mask pixel buffer (red channel per pixel). -/
structure CaptureInput where
  refsPresent : Bool
  contextsOk : Bool
  videoWidth : ℕ
  videoHeight : ℕ
  frame : List RGBA
  detection : Except Unit (Option Detection)
  rasterize : List PathCmd → List ℕ

/-- The `captureImage` handler (App.tsx lines 52-212) as a state transformer.
Guard order follows the source: missing refs → silent return; models not
loaded → "still loading" error; missing contexts → silent return; then the
try block: a rejected detection promise or a thrown mask construction lands
in the catch block (generic message); a null detection sets the no-face
message; otherwise the mask is rasterized, applied, the height field derived,
and heightMap, imageData and error (cleared) are all published. -/
def captureImage (s : AppState) (inp : CaptureInput) : AppState :=
  if inp.refsPresent = false then s
  else if s.modelsLoaded = false then { s with error := some stillLoadingMsg }
  else if inp.contextsOk = false then s
  else
    match inp.detection with
    | .error _ => { s with error := some captureErrMsg }
    | .ok none => { s with error := some noFaceMsg }
    | .ok (some det) =>
      match buildMaskPath det with
      | .error _ => { s with error := some captureErrMsg }
      | .ok cmds =>
        let masked := applyMask (inp.rasterize cmds) inp.frame
        { s with
            heightMap := some (heightField masked),
            imageData := some masked,
            error := none }

/-- The renderer's per-index lookup `heightMap[idx] || 0` (App.tsx line 256):
a Float32Array entry is modelled as `Option ℚ` with `none` for NaN; an
out-of-range index reads `undefined`. Both `undefined` and `NaN` are falsy,
as is 0, so `|| 0` yields 0 for all of them and the entry's value otherwise. -/
def heightValueAt (hm : List (Option ℚ)) (idx : ℕ) : ℚ :=
  match hm.getD idx none with
  | none => 0
  | some q => q

/-- The renderer's vertex depth (App.tsx line 259):
`vertices[i+2] = isNaN(heightValue) ? 0 : heightValue * 2`. After `|| 0` the
value is never NaN, so the depth is always `heightValueAt * 2`. -/
def vertexDepth (hm : List (Option ℚ)) (idx : ℕ) : ℚ :=
  heightValueAt hm idx * 2

/-- The vertex update loop of `HeightMapMesh` (App.tsx lines 253-260): for
vertex v (= i/3), x = v % width, y = v / width, and the depth written is
`vertexDepth hm (y * width + x)`. -/
def updateVertices (hm : List (Option ℚ)) (width nVerts : ℕ) : List ℚ :=
  (List.range nVerts).map (fun v => vertexDepth hm (v / width * width + v % width))

example : clampRound3 1 = 0 := by decide
example : clampRound3 2 = 1 := by decide
example : clampRound3 765 = 255 := by decide

/-! ### Concrete fixtures used by counterexamples and witnesses -/

/-- A one-point jaw outline (nonempty, so the path construction succeeds). -/
def jaw1 : List Point := [⟨0, 0⟩]

/-- A minimal detection with a nonempty jaw outline. -/
def det1 : Detection := ⟨⟨0, 0, 1, 1⟩, jaw1⟩

/-- A detection whose jaw outline is empty. -/
def detE : Detection := ⟨⟨0, 0, 1, 1⟩, []⟩

/-- A ready state: models loaded, nothing published yet, no error. -/
def s0 : AppState := ⟨none, none, true, none⟩

/-- A state captured before the models finished loading. -/
def sNotLoaded : AppState := ⟨none, none, false, none⟩

/-- A 1x1 capture environment: one pixel with RGB (0,0,1), a successful
detection of `det1`, and a rasterizer that marks the pixel in-head. -/
def inp0 : CaptureInput := ⟨true, true, 1, 1, [⟨0, 0, 1, 255⟩], .ok (some det1), fun _ => [255]⟩

/-- Same environment but the detection returns a face with an empty jaw outline. -/
def inpE : CaptureInput := { inp0 with detection := .ok (some detE) }

/-- Same environment but the detection promise rejects (throws). -/
def inpT : CaptureInput := { inp0 with detection := .error () }

/-- Same environment but the detection returns no face (null). -/
def inpN : CaptureInput := { inp0 with detection := .ok none }

/-! ### Helper lemmas -/

/-- A nonempty jaw outline makes the path construction succeed. -/
lemma buildMaskPath_ok (det : Detection) (h : det.jawOutline ≠ []) :
    ∃ cmds, buildMaskPath det = .ok cmds := by
  rcases hb : buildMaskPath det with e | cmds
  · rcases hj : det.jawOutline.getLast? with _ | last
    · rw [List.getLast?_eq_none_iff] at hj
      exact absurd hj h
    · simp only [buildMaskPath, hj] at hb
      exact Except.noConfusion hb
  · exact ⟨cmds, rfl⟩

/-- An empty jaw outline makes the path construction throw. -/
lemma buildMaskPath_err (det : Detection) (h : det.jawOutline = []) :
    buildMaskPath det = .error () := by
  unfold buildMaskPath
  rw [h]
  rfl

/-- Characterization of a fully successful `captureImage` run. -/
lemma captureImage_success (s : AppState) (inp : CaptureInput) (det : Detection)
    (cmds : List PathCmd)
    (h1 : inp.refsPresent = true) (h2 : s.modelsLoaded = true)
    (h3 : inp.contextsOk = true) (h4 : inp.detection = .ok (some det))
    (h5 : buildMaskPath det = .ok cmds) :
    captureImage s inp =
      { s with
          heightMap := some (heightField (applyMask (inp.rasterize cmds) inp.frame)),
          imageData := some (applyMask (inp.rasterize cmds) inp.frame),
          error := none } := by
  simp [captureImage, h1, h2, h3, h4, h5]

/-- Indexing into the masked buffer. -/
lemma applyMask_getElem? (faceMask : List ℕ) (data : List RGBA) (j : ℕ)
    (mR : ℕ) (p : RGBA) (hm : faceMask[j]? = some mR) (hp : data[j]? = some p) :
    (applyMask faceMask data)[j]? = some (maskPixel mR p) := by
  unfold applyMask
  rw [List.getElem?_zipWith_eq_some]
  exact ⟨mR, p, hm, hp, rfl⟩

/-- Every element of a zipWith comes from a pair of elements of the inputs. -/
lemma of_mem_zipWith {α β γ : Type} {f : α → β → γ} {c : γ} :
    ∀ {l : List α} {l' : List β}, c ∈ List.zipWith f l l' →
      ∃ a b, a ∈ l ∧ b ∈ l' ∧ c = f a b := by
  intro l
  induction l with
  | nil => intro l' h; simp [List.zipWith] at h
  | cons a as ih =>
    intro l' h
    cases l' with
    | nil => simp [List.zipWith] at h
    | cons b bs =>
      rcases List.mem_cons.mp h with h | h
      · exact ⟨a, b, List.mem_cons_self _ _, List.mem_cons_self _ _, h⟩
      · rcases ih h with ⟨a', b', ha, hb, hc⟩
        exact ⟨a', b', List.mem_cons_of_mem _ ha, List.mem_cons_of_mem _ hb, hc⟩

/-! ### C7 -/

/-- C7: triggering capture while the models are not yet loaded (with the UI
mounted, i.e. refs present) refuses to run the pipeline: it surfaces the
"still loading" notice and leaves the height field and image exactly as they
were (so an unset HeightField stays unset). -/
theorem C7_still_loading (s : AppState) (inp : CaptureInput)
    (h1 : inp.refsPresent = true) (h2 : s.modelsLoaded = false) :
    (captureImage s inp).error = some stillLoadingMsg ∧
    (captureImage s inp).heightMap = s.heightMap ∧
    (captureImage s inp).imageData = s.imageData := by
  simp [captureImage, h1, h2]

/-- C7 witness: the concrete not-yet-loaded state with the concrete input. -/
theorem C7_witness :
    (captureImage sNotLoaded inp0).error = some stillLoadingMsg ∧
    (captureImage sNotLoaded inp0).heightMap = none ∧
    (captureImage sNotLoaded inp0).imageData = none :=
  C7_still_loading sNotLoaded inp0 rfl rfl

/-! ### C8 -/

/-- C8: every successful capture (refs and contexts present, models loaded,
detection returns a face with a nonempty jaw outline) publishes both the new
height field and the masked snapshot image, and clears the error slot. -/
theorem C8_success_publishes (s : AppState) (inp : CaptureInput) (det : Detection)
    (h1 : inp.refsPresent = true) (h2 : s.modelsLoaded = true)
    (h3 : inp.contextsOk = true) (h4 : inp.detection = .ok (some det))
    (h5 : det.jawOutline ≠ []) :
    ∃ masked : List RGBA,
      (captureImage s inp).heightMap = some (heightField masked) ∧
      (captureImage s inp).imageData = some masked ∧
      (captureImage s inp).error = none := by
  obtain ⟨cmds, hc⟩ := buildMaskPath_ok det h5
  rw [captureImage_success s inp det cmds h1 h2 h3 h4 hc]
  exact ⟨_, rfl, rfl, rfl⟩

/-- C8 witness: the concrete successful 1x1 capture. -/
theorem C8_witness :
    ∃ masked : List RGBA,
      (captureImage s0 inp0).heightMap = some (heightField masked) ∧
      (captureImage s0 inp0).imageData = some masked ∧
      (captureImage s0 inp0).error = none :=
  C8_success_publishes s0 inp0 det1 rfl rfl rfl rfl (by decide)

/-! ### C4 -/

/-- C4 counterexample: when the detection call throws (the promise rejects),
the code lands in the catch block and surfaces the generic capture-error
message, not the "no face detected" message the claim requires. -/
theorem C4_counterexample :
    (captureImage s0 inpT).error = some captureErrMsg ∧ captureErrMsg ≠ noFaceMsg :=
  ⟨rfl, by decide⟩

/-- C4 amended: when detection returns an empty (null) result the capture
surfaces the "no face detected" message; when detection throws it surfaces
the generic capture-error message instead; in both cases the prior height
field (and image) remain unchanged — nothing is published. -/
theorem C4_detection_outcomes (s : AppState) (inp : CaptureInput)
    (h1 : inp.refsPresent = true) (h2 : s.modelsLoaded = true)
    (h3 : inp.contextsOk = true) :
    (inp.detection = .ok none →
      (captureImage s inp).error = some noFaceMsg ∧
      (captureImage s inp).heightMap = s.heightMap ∧
      (captureImage s inp).imageData = s.imageData) ∧
    (∀ e, inp.detection = .error e →
      (captureImage s inp).error = some captureErrMsg ∧
      (captureImage s inp).heightMap = s.heightMap ∧
      (captureImage s inp).imageData = s.imageData) := by
  constructor
  · intro h4
    simp [captureImage, h1, h2, h3, h4]
  · intro e h4
    simp [captureImage, h1, h2, h3, h4]

/-- C4 witness: the concrete null-detection run keeps the state and shows
the no-face message. -/
theorem C4_witness :
    (captureImage s0 inpN).error = some noFaceMsg ∧
    (captureImage s0 inpN).heightMap = none ∧
    (captureImage s0 inpN).imageData = none :=
  (C4_detection_outcomes s0 inpN rfl rfl rfl).1 rfl

/-! ### C3 -/

/-- C3 counterexample: a detection that returns a face with an empty jaw
outline does not abort with the "no face detected" message: reading the last
jaw point throws, the catch block runs, and the generic capture-error
message is surfaced. -/
theorem C3_counterexample :
    (captureImage s0 inpE).error = some captureErrMsg ∧ captureErrMsg ≠ noFaceMsg :=
  ⟨rfl, by decide⟩

/-- C3 amended: a null detection (zero landmarks) aborts with the
NoFaceDetected message; a detection with an empty jaw outline also aborts
before any mask is built, but with the generic capture-error message (the
path construction throws); in both cases nothing is published. -/
theorem C3_degenerate_detection (s : AppState) (inp : CaptureInput)
    (h1 : inp.refsPresent = true) (h2 : s.modelsLoaded = true)
    (h3 : inp.contextsOk = true) :
    (inp.detection = .ok none →
      (captureImage s inp).error = some noFaceMsg ∧
      (captureImage s inp).heightMap = s.heightMap ∧
      (captureImage s inp).imageData = s.imageData) ∧
    (∀ det, inp.detection = .ok (some det) → det.jawOutline = [] →
      (captureImage s inp).error = some captureErrMsg ∧
      (captureImage s inp).heightMap = s.heightMap ∧
      (captureImage s inp).imageData = s.imageData) := by
  constructor
  · intro h4
    simp [captureImage, h1, h2, h3, h4]
  · intro det h4 h5
    have hb := buildMaskPath_err det h5
    simp [captureImage, h1, h2, h3, h4, hb]

/-- C3 witness: the concrete empty-jaw run surfaces the generic error and
publishes nothing. -/
theorem C3_witness :
    (captureImage s0 inpE).error = some captureErrMsg ∧
    (captureImage s0 inpE).heightMap = none ∧
    (captureImage s0 inpE).imageData = none :=
  (C3_degenerate_detection s0 inpE rfl rfl rfl).2 detE rfl rfl

/-- The stored 8-bit average is within 1/2 of the true average n/3. -/
lemma clampRound3_close (n : ℕ) : |((clampRound3 n : ℕ) : ℚ) - n / 3| ≤ 1 / 2 := by
  have hmod := Nat.div_add_mod (2 * n + 3) 6
  have hr : (2 * n + 3) % 6 < 6 := Nat.mod_lt _ (by norm_num)
  have hq : (6 : ℚ) * (((2 * n + 3) / 6 : ℕ) : ℚ) + (((2 * n + 3) % 6 : ℕ) : ℚ)
      = 2 * (n : ℚ) + 3 := by exact_mod_cast hmod
  have hrq : (((2 * n + 3) % 6 : ℕ) : ℚ) < 6 := by exact_mod_cast hr
  have hr0 : (0 : ℚ) ≤ (((2 * n + 3) % 6 : ℕ) : ℚ) := Nat.cast_nonneg _
  have hk : ((clampRound3 n : ℕ) : ℚ) = (((2 * n + 3) / 6 : ℕ) : ℚ) := rfl
  rw [hk, abs_le]
  constructor <;> linarith

/-- The stored 8-bit average stays in range when the channels do. -/
lemma clampRound3_le (n : ℕ) (h : n ≤ 765) : clampRound3 n ≤ 255 := by
  unfold clampRound3
  omega

/-- The red channel of a masked pixel stays in range. -/
lemma maskPixel_r_le (mR : ℕ) (p : RGBA)
    (h1 : p.r ≤ 255) (h2 : p.g ≤ 255) (h3 : p.b ≤ 255) :
    (maskPixel mR p).r ≤ 255 := by
  unfold maskPixel
  by_cases h : mR = 255 <;> simp [h]
  exact clampRound3_le _ (by omega)

/-! ### C1 -/

/-- C1 counterexample: in the concrete 1x1 capture the single in-mask pixel
has RGB (0,0,1); its true grayscale luminance ÷ 255 is 1/765 ≈ 2^(-9.6), but
the published height is exactly 0, because the average 1/3 is rounded into
the 8-bit clamped channel before normalizing. The gap exceeds 1/2^20, far
beyond floating rounding (a float32 ulp near 1/765 is about 2^(-33)), so the
claim "height equals luminance ÷ 255 within floating rounding" is false. -/
theorem C1_counterexample :
    (captureImage s0 inp0).heightMap = some [0] ∧
    ((0 : ℚ) + 0 + 1) / 3 / 255 ≠ 0 ∧
    ((0 : ℚ) + 0 + 1) / 3 / 255 > 1 / 2 ^ 20 := by
  refine ⟨?_, by norm_num, by norm_num⟩
  obtain ⟨cmds, hc⟩ := buildMaskPath_ok det1 (by decide)
  rw [captureImage_success s0 inp0 det1 cmds rfl rfl rfl rfl hc]
  show some (heightField (applyMask (inp0.rasterize cmds) inp0.frame)) = some [0]
  norm_num [inp0, heightField, applyMask, maskPixel, clampRound3]

/-- C1 amended: after masking and height derivation, a pixel outside the
head mask (mask red ≠ 255) yields height 0, and a pixel inside the mask
yields the 8-bit-quantized average `round((r+g+b)/3) / 255`, which is within
1/510 of the true grayscale luminance ÷ 255 (8-bit quantization, not mere
floating rounding). -/
theorem C1_mask_heights (faceMask : List ℕ) (data : List RGBA) (j : ℕ)
    (mR : ℕ) (p : RGBA)
    (hm : faceMask[j]? = some mR) (hp : data[j]? = some p) :
    (mR ≠ 255 → (heightField (applyMask faceMask data))[j]? = some 0) ∧
    (mR = 255 →
      (heightField (applyMask faceMask data))[j]? =
        some ((clampRound3 (p.r + p.g + p.b) : ℚ) / 255) ∧
      |((clampRound3 (p.r + p.g + p.b) : ℚ) / 255) -
          (((p.r + p.g + p.b : ℕ) : ℚ) / 3) / 255| ≤ 1 / 510) := by
  have hz := applyMask_getElem? faceMask data j mR p hm hp
  constructor
  · intro h
    rw [heightField, List.getElem?_map, hz]
    simp [maskPixel, h]
  · intro h
    subst h
    refine ⟨?_, ?_⟩
    · rw [heightField, List.getElem?_map, hz]
      simp [maskPixel]
    · have hclose := clampRound3_close (p.r + p.g + p.b)
      have heq : (clampRound3 (p.r + p.g + p.b) : ℚ) / 255 -
          (((p.r + p.g + p.b : ℕ) : ℚ) / 3) / 255 =
          ((clampRound3 (p.r + p.g + p.b) : ℚ) - ((p.r + p.g + p.b : ℕ) : ℚ) / 3) / 255 := by
        push_cast
        ring
      rw [heq, abs_div, abs_of_pos (by norm_num : (0 : ℚ) < 255)]
      rw [div_le_div_iff₀ (by norm_num) (by norm_num)]
      nlinarith [hclose]

/-- C1 witness: the in-mask branch of the amended claim at the concrete
pixel (0,0,1) under mask value 255. -/
theorem C1_witness :
    (heightField (applyMask [255] [⟨0, 0, 1, 255⟩]))[0]? =
      some ((clampRound3 (0 + 0 + 1) : ℚ) / 255) ∧
    |((clampRound3 (0 + 0 + 1) : ℚ) / 255) - (((0 + 0 + 1 : ℕ) : ℚ) / 3) / 255| ≤ 1 / 510 :=
  (C1_mask_heights [255] [⟨0, 0, 1, 255⟩] 0 255 ⟨0, 0, 1, 255⟩ rfl rfl).2 rfl

/-! ### C9 -/

/-- C9: the masking loop classifies a pixel as in-head exactly when the
rasterized mask's red channel equals 255: such a pixel becomes its grayscale
average, while a pixel whose mask red value differs from 255 (in particular
any anti-aliased boundary value below 255) is treated as background: it is
set to black and its derived height is 0. -/
theorem C9_mask_threshold (faceMask : List ℕ) (data : List RGBA) (j : ℕ)
    (mR : ℕ) (p : RGBA)
    (hm : faceMask[j]? = some mR) (hp : data[j]? = some p) :
    (mR = 255 →
      (applyMask faceMask data)[j]? =
        some ⟨clampRound3 (p.r + p.g + p.b), clampRound3 (p.r + p.g + p.b),
              clampRound3 (p.r + p.g + p.b), p.a⟩) ∧
    (mR ≠ 255 →
      (applyMask faceMask data)[j]? = some ⟨0, 0, 0, p.a⟩ ∧
      (heightField (applyMask faceMask data))[j]? = some 0) := by
  have hz := applyMask_getElem? faceMask data j mR p hm hp
  constructor
  · intro h
    rw [hz]
    simp [maskPixel, h]
  · intro h
    refine ⟨by rw [hz]; simp [maskPixel, h], ?_⟩
    rw [heightField, List.getElem?_map, hz]
    simp [maskPixel, h]

/-- C9 witness: an anti-aliased boundary pixel with mask red value 254 is
blacked out and yields height 0. -/
theorem C9_witness :
    (applyMask [254] [⟨10, 20, 30, 255⟩])[0]? = some ⟨0, 0, 0, 255⟩ ∧
    (heightField (applyMask [254] [⟨10, 20, 30, 255⟩]))[0]? = some 0 :=
  (C9_mask_threshold [254] [⟨10, 20, 30, 255⟩] 0 254 ⟨10, 20, 30, 255⟩ rfl rfl).2
    (by decide)

/-! ### C10 -/

/-- C10: every entry of the derived height field equals k/255 for an integer
0 ≤ k ≤ 255: the in-mask grayscale average is rounded into the 8-bit clamped
channel before being divided by 255, so the heights take at most 256
distinct values. -/
theorem C10_heights_quantized (faceMask : List ℕ) (data : List RGBA)
    (hb : ∀ p ∈ data, p.r ≤ 255 ∧ p.g ≤ 255 ∧ p.b ≤ 255) :
    ∀ q ∈ heightField (applyMask faceMask data),
      ∃ k : ℕ, k ≤ 255 ∧ q = (k : ℚ) / 255 := by
  intro q hq
  rw [heightField, List.mem_map] at hq
  obtain ⟨px, hpx, rfl⟩ := hq
  unfold applyMask at hpx
  obtain ⟨mr, p, _, hp, rfl⟩ := of_mem_zipWith hpx
  by_cases h : mr = 255
  · refine ⟨clampRound3 (p.r + p.g + p.b), ?_, ?_⟩
    · obtain ⟨h1, h2, h3⟩ := hb p hp
      exact clampRound3_le _ (by omega)
    · simp [maskPixel, h]
  · exact ⟨0, by norm_num, by simp [maskPixel, h]⟩

/-- C10 witness: the height of the concrete in-mask pixel (100,150,200) is
150/255, i.e. k/255 with k = 150. -/
theorem C10_witness :
    ∃ k : ℕ, k ≤ 255 ∧ ((150 : ℕ) : ℚ) / 255 = (k : ℚ) / 255 :=
  C10_heights_quantized [255] [⟨100, 150, 200, 255⟩] (by decide)
    (((150 : ℕ) : ℚ) / 255)
    (by norm_num [heightField, applyMask, maskPixel, clampRound3])

/-! ### C2 -/

/-- C2: a successful capture of a videoWidth x videoHeight frame (the canvas
buffers are sized to the frame; channels are 8-bit) publishes a height field
with exactly videoWidth*videoHeight entries, each in [0,1], one scalar per
pixel in the buffer's row-major order: entry j is derived from frame pixel j
and mask pixel j. -/
theorem C2_heightfield_shape (s : AppState) (inp : CaptureInput) (det : Detection)
    (h1 : inp.refsPresent = true) (h2 : s.modelsLoaded = true)
    (h3 : inp.contextsOk = true) (h4 : inp.detection = .ok (some det))
    (h5 : det.jawOutline ≠ [])
    (hfl : inp.frame.length = inp.videoWidth * inp.videoHeight)
    (hml : ∀ c, (inp.rasterize c).length = inp.videoWidth * inp.videoHeight)
    (hpb : ∀ p ∈ inp.frame, p.r ≤ 255 ∧ p.g ≤ 255 ∧ p.b ≤ 255) :
    ∃ (hf : List ℚ) (faceMask : List ℕ), (captureImage s inp).heightMap = some hf ∧
      hf.length = inp.videoWidth * inp.videoHeight ∧
      (∀ q ∈ hf, 0 ≤ q ∧ q ≤ 1) ∧
      (∀ (j mR : ℕ) (p : RGBA), faceMask[j]? = some mR → inp.frame[j]? = some p →
        hf[j]? = some (((maskPixel mR p).r : ℚ) / 255)) := by
  obtain ⟨cmds, hc⟩ := buildMaskPath_ok det h5
  rw [captureImage_success s inp det cmds h1 h2 h3 h4 hc]
  refine ⟨_, inp.rasterize cmds, rfl, ?_, ?_, ?_⟩
  · rw [heightField, List.length_map, applyMask, List.length_zipWith, hml, hfl, min_self]
  · intro q hq
    rw [heightField, List.mem_map] at hq
    obtain ⟨px, hpx, rfl⟩ := hq
    unfold applyMask at hpx
    obtain ⟨mr, p, _, hp, rfl⟩ := of_mem_zipWith hpx
    obtain ⟨hr, hg, hbb⟩ := hpb p hp
    have hle : (maskPixel mr p).r ≤ 255 := maskPixel_r_le mr p hr hg hbb
    constructor
    · positivity
    · rw [div_le_one (by norm_num)]
      exact_mod_cast hle
  · intro j mR p hm hp
    rw [heightField, List.getElem?_map, applyMask_getElem? _ _ _ _ _ hm hp]
    rfl

/-- C2 witness: the concrete 1x1 successful capture. -/
theorem C2_witness :
    ∃ (hf : List ℚ) (faceMask : List ℕ), (captureImage s0 inp0).heightMap = some hf ∧
      hf.length = inp0.videoWidth * inp0.videoHeight ∧
      (∀ q ∈ hf, 0 ≤ q ∧ q ≤ 1) ∧
      (∀ (j mR : ℕ) (p : RGBA), faceMask[j]? = some mR → inp0.frame[j]? = some p →
        hf[j]? = some (((maskPixel mR p).r : ℚ) / 255)) :=
  C2_heightfield_shape s0 inp0 det1 rfl rfl rfl rfl (by decide) rfl
    (fun _ => rfl) (by decide)

/-! ### C5 -/

/-- C5: the renderer assigns the grid vertex at (row, col) the depth
heightField[row*width+col] * 2 when that entry exists and is numeric (NaN is
modelled as `none`); an index outside the array's range or a NaN entry both
yield depth 0; the lookup is a total function, so it never fails. -/
theorem C5_vertex_depth (hm : List (Option ℚ)) (width height row col : ℕ)
    (hrow : row < height) (hcol : col < width) :
    (updateVertices hm width (width * height))[row * width + col]? =
      some (vertexDepth hm (row * width + col)) ∧
    (∀ q : ℚ, hm[row * width + col]? = some (some q) →
      vertexDepth hm (row * width + col) = q * 2) ∧
    ((hm.length ≤ row * width + col ∨ hm[row * width + col]? = some none) →
      vertexDepth hm (row * width + col) = 0) := by
  have hv : row * width + col < width * height := by
    have h1 : row * width + col < (row + 1) * width := by
      rw [Nat.succ_mul]
      omega
    have h2 : (row + 1) * width ≤ height * width :=
      Nat.mul_le_mul_right _ (Nat.succ_le_of_lt hrow)
    calc row * width + col < (row + 1) * width := h1
      _ ≤ height * width := h2
      _ = width * height := Nat.mul_comm _ _
  refine ⟨?_, ?_, ?_⟩
  · rw [updateVertices, List.getElem?_map, List.getElem?_range hv]
    rw [Option.map_some']
    have : (row * width + col) / width * width + (row * width + col) % width
        = row * width + col := Nat.div_add_mod' _ _
    rw [this]
  · intro q h
    simp [vertexDepth, heightValueAt, List.getD_eq_getElem?_getD, h]
  · intro h
    rcases h with h | h
    · have : hm[row * width + col]? = none := List.getElem?_eq_none h
      simp [vertexDepth, heightValueAt, List.getD_eq_getElem?_getD, this]
    · simp [vertexDepth, heightValueAt, List.getD_eq_getElem?_getD, h]

/-- C5 witness: a 2x1 grid over the field [some (1/2), NaN]: vertex (0,0)
reads its entry, and the NaN entry (index 1) yields depth 0 via the second
conjunct at a fresh application. -/
theorem C5_witness :
    (updateVertices [some ((1 : ℚ) / 2), none] 2 (2 * 1))[0 * 2 + 0]? =
      some (vertexDepth [some ((1 : ℚ) / 2), none] (0 * 2 + 0)) ∧
    (∀ q : ℚ, ([some ((1 : ℚ) / 2), none] : List (Option ℚ))[0 * 2 + 0]? = some (some q) →
      vertexDepth [some ((1 : ℚ) / 2), none] (0 * 2 + 0) = q * 2) ∧
    ((([some ((1 : ℚ) / 2), none] : List (Option ℚ)).length ≤ 0 * 2 + 0 ∨
      ([some ((1 : ℚ) / 2), none] : List (Option ℚ))[0 * 2 + 0]? = some none) →
      vertexDepth [some ((1 : ℚ) / 2), none] (0 * 2 + 0) = 0) :=
  C5_vertex_depth [some ((1 : ℚ) / 2), none] 2 1 0 0 (by decide) (by decide)

/-! ### C6: geometry of the mask path and the canvas fill -/

/-- The trace (image) of a straight line segment from a to b, over ℝ. -/
def segSet (a b : Point) : Set (ℝ × ℝ) :=
  {q | ∃ t : ℝ, 0 ≤ t ∧ t ≤ 1 ∧
    q.1 = (1 - t) * (a.x : ℝ) + t * (b.x : ℝ) ∧
    q.2 = (1 - t) * (a.y : ℝ) + t * (b.y : ℝ)}

/-- The trace of a quadratic Bezier curve from p0 to p1 with control c
(canvas `quadraticCurveTo`). -/
def quadSet (p0 c p1 : Point) : Set (ℝ × ℝ) :=
  {q | ∃ t : ℝ, 0 ≤ t ∧ t ≤ 1 ∧
    q.1 = (1 - t) ^ 2 * (p0.x : ℝ) + 2 * t * (1 - t) * (c.x : ℝ) + t ^ 2 * (p1.x : ℝ) ∧
    q.2 = (1 - t) ^ 2 * (p0.y : ℝ) + 2 * t * (1 - t) * (c.y : ℝ) + t ^ 2 * (p1.y : ℝ)}

/-- The trace of a command list starting a subpath at `start` with current
point `cur`; the end of the list closes the subpath back to `start`
(`closePath`, App.tsx line 170). `moveTo` begins a new subpath (in the
source it occurs only once, at the head of the path). -/
def traceFrom : Point → Point → List PathCmd → Set (ℝ × ℝ)
  | start, cur, [] => segSet cur start
  | _, _, (PathCmd.moveTo p) :: rest => traceFrom p p rest
  | start, cur, (PathCmd.lineTo p) :: rest => segSet cur p ∪ traceFrom start p rest
  | start, cur, (PathCmd.quadTo c p) :: rest => quadSet cur c p ∪ traceFrom start p rest

/-- The trace of a whole path: the head `moveTo` fixes the subpath start. -/
def pathTrace (cmds : List PathCmd) : Set (ℝ × ℝ) :=
  match cmds with
  | PathCmd.moveTo p :: rest => traceFrom p p rest
  | _ => traceFrom ⟨0, 0⟩ ⟨0, 0⟩ cmds

/-- Modelled from the spec: the canvas `fill()` rasterization ("pixel is
in-head iff inside the filled path") is a browser primitive, not code of
this repository. Under any fill rule (canvas uses nonzero winding; even-odd
is the alternative) a filled point either lies on the path's trace or is
separated from infinity by it, i.e. lies in a bounded connected component of
the trace's complement. `filledRegion` is that superset of the filled area:
a point outside `filledRegion` is outside the filled area under any rule. -/
def filledRegion (tr : Set (ℝ × ℝ)) : Set (ℝ × ℝ) :=
  {p | p ∈ tr ∨ Bornology.IsBounded (connectedComponentIn trᶜ p)}

/-- The (closed) rectangle of a detection box. -/
def boxSet (b : Box) : Set (ℝ × ℝ) :=
  {q | (b.x : ℝ) ≤ q.1 ∧ q.1 ≤ (b.x : ℝ) + (b.width : ℝ) ∧
       (b.y : ℝ) ≤ q.2 ∧ q.2 ≤ (b.y : ℝ) + (b.height : ℝ)}

/-- The 17-point synthetic jaw outline of the C6 scenario: evenly spaced
along the horizontal line y = 300, inside the lower half of the face box
(the box spans y in [100, 380], its lower half is y in [240, 380]). -/
def jaw17 : List Point :=
  [⟨200, 300⟩, ⟨215, 300⟩, ⟨230, 300⟩, ⟨245, 300⟩, ⟨260, 300⟩, ⟨275, 300⟩,
   ⟨290, 300⟩, ⟨305, 300⟩, ⟨320, 300⟩, ⟨335, 300⟩, ⟨350, 300⟩, ⟨365, 300⟩,
   ⟨380, 300⟩, ⟨395, 300⟩, ⟨410, 300⟩, ⟨425, 300⟩, ⟨440, 300⟩]

/-- The C6 scenario detection: face box (x=200, y=100, w=240, h=280) in a
640x480 frame. -/
def det6 : Detection := ⟨⟨200, 100, 240, 280⟩, jaw17⟩

/-- The mask path the source constructs for `det6` (extendedWidth = 336,
extendedHeight = 448, topY = -68, center = (320, 240)). -/
def path6 : List PathCmd :=
  [PathCmd.moveTo ⟨132.8, 240⟩,
   PathCmd.quadTo ⟨166.4, -112.8⟩ ⟨320, -157.6⟩,
   PathCmd.quadTo ⟨473.6, -112.8⟩ ⟨507.2, 240⟩,
   PathCmd.quadTo ⟨473.6, 424.8⟩ ⟨440, 300⟩,
   PathCmd.lineTo ⟨425, 300⟩, PathCmd.lineTo ⟨410, 300⟩, PathCmd.lineTo ⟨395, 300⟩,
   PathCmd.lineTo ⟨380, 300⟩, PathCmd.lineTo ⟨365, 300⟩, PathCmd.lineTo ⟨350, 300⟩,
   PathCmd.lineTo ⟨335, 300⟩, PathCmd.lineTo ⟨320, 300⟩, PathCmd.lineTo ⟨305, 300⟩,
   PathCmd.lineTo ⟨290, 300⟩, PathCmd.lineTo ⟨275, 300⟩, PathCmd.lineTo ⟨260, 300⟩,
   PathCmd.lineTo ⟨245, 300⟩, PathCmd.lineTo ⟨230, 300⟩, PathCmd.lineTo ⟨215, 300⟩,
   PathCmd.lineTo ⟨200, 300⟩,
   PathCmd.quadTo ⟨166.4, 424.8⟩ ⟨132.8, 240⟩]

/-- The source's path construction on the C6 scenario yields `path6`. -/
lemma buildMaskPath_det6 : buildMaskPath det6 = .ok path6 := by
  norm_num [buildMaskPath, det6, jaw17, path6, scaleX, scaleY]

/-- Points of a segment have y at most the larger endpoint y. -/
lemma mem_segSet_y_le {a b : Point} {q : ℝ × ℝ} (h : q ∈ segSet a b) :
    q.2 ≤ max (a.y : ℝ) (b.y : ℝ) := by
  obtain ⟨t, ht0, ht1, _, hy⟩ := h
  rw [hy]
  have h1 : (a.y : ℝ) ≤ max (a.y : ℝ) (b.y : ℝ) := le_max_left _ _
  have h2 : (b.y : ℝ) ≤ max (a.y : ℝ) (b.y : ℝ) := le_max_right _ _
  nlinarith [mul_nonneg (by linarith : (0 : ℝ) ≤ 1 - t)
      (by linarith : (0 : ℝ) ≤ max (a.y : ℝ) (b.y : ℝ) - (a.y : ℝ)),
    mul_nonneg ht0 (by linarith : (0 : ℝ) ≤ max (a.y : ℝ) (b.y : ℝ) - (b.y : ℝ))]

/-- Points of a quadratic Bezier have y at most
max(anchor bound M, (M + control y)/2): the curve is a convex combination
of M and the control until the parabola bound t(1-t) ≤ 1/4 kicks in. -/
lemma mem_quadSet_y_le {p0 c p1 : Point} {q : ℝ × ℝ} (h : q ∈ quadSet p0 c p1)
    (M B : ℝ) (h0 : (p0.y : ℝ) ≤ M) (h1 : (p1.y : ℝ) ≤ M) (hMB : M ≤ B)
    (hcB : (M + (c.y : ℝ)) / 2 ≤ B) :
    q.2 ≤ B := by
  obtain ⟨t, ht0, ht1, _, hy⟩ := h
  rw [hy]
  rcases le_or_lt (c.y : ℝ) M with hc | hc
  · nlinarith [mul_nonneg (sq_nonneg (1 - t)) (by linarith : (0 : ℝ) ≤ M - (p0.y : ℝ)),
      mul_nonneg (sq_nonneg t) (by linarith : (0 : ℝ) ≤ M - (p1.y : ℝ)),
      mul_nonneg (mul_nonneg ht0 (by linarith : (0 : ℝ) ≤ 1 - t))
        (by linarith : (0 : ℝ) ≤ M - (c.y : ℝ))]
  · nlinarith [mul_nonneg (sq_nonneg (1 - t)) (by linarith : (0 : ℝ) ≤ M - (p0.y : ℝ)),
      mul_nonneg (sq_nonneg t) (by linarith : (0 : ℝ) ≤ M - (p1.y : ℝ)),
      mul_nonneg (sq_nonneg (1 - 2 * t)) (by linarith : (0 : ℝ) ≤ (c.y : ℝ) - M)]

/-- Per-command y bounds: every anchor point has y at most M, and every
quadratic control point c satisfies (M + c.y)/2 at most B. -/
def cmdYBound (M B : ℝ) : PathCmd → Prop
  | .moveTo p => (p.y : ℝ) ≤ M
  | .lineTo p => (p.y : ℝ) ≤ M
  | .quadTo c p => (p.y : ℝ) ≤ M ∧ (M + (c.y : ℝ)) / 2 ≤ B

/-- The whole trace stays below B when the anchors stay below M ≤ B and the
controls satisfy the quadratic bound. -/
lemma traceFrom_y_le (M B : ℝ) (hMB : M ≤ B) :
    ∀ (cmds : List PathCmd) (start cur : Point),
      (start.y : ℝ) ≤ M → (cur.y : ℝ) ≤ M →
      (∀ cmd ∈ cmds, cmdYBound M B cmd) →
      ∀ q ∈ traceFrom start cur cmds, q.2 ≤ B := by
  intro cmds
  induction cmds with
  | nil =>
    intro start cur hs hc _ q hq
    have hy := mem_segSet_y_le hq
    have hm : max (cur.y : ℝ) (start.y : ℝ) ≤ M := max_le hc hs
    linarith
  | cons cmd rest ih =>
    intro start cur hs hc hall q hq
    match cmd with
    | PathCmd.moveTo p =>
      have hp : (p.y : ℝ) ≤ M := hall _ (List.mem_cons_self _ _)
      exact ih p p hp hp (fun c2 hc2 => hall c2 (List.mem_cons_of_mem _ hc2)) q hq
    | PathCmd.lineTo p =>
      have hp : (p.y : ℝ) ≤ M := hall _ (List.mem_cons_self _ _)
      rcases hq with hq | hq
      · have hy := mem_segSet_y_le hq
        have hm : max (cur.y : ℝ) (p.y : ℝ) ≤ M := max_le hc hp
        linarith
      · exact ih start p hs hp (fun c2 hc2 => hall c2 (List.mem_cons_of_mem _ hc2)) q hq
    | PathCmd.quadTo c p =>
      have hp : (p.y : ℝ) ≤ M ∧ (M + (c.y : ℝ)) / 2 ≤ B :=
        hall _ (List.mem_cons_self _ _)
      rcases hq with hq | hq
      · exact mem_quadSet_y_le hq M B hc hp.1 hMB hp.2
      · exact ih start p hs hp.1 (fun c2 hc2 => hall c2 (List.mem_cons_of_mem _ hc2)) q hq

/-- The whole trace of the C6 mask path stays below y = 374. -/
lemma trace6_y_le : ∀ q ∈ pathTrace path6, q.2 ≤ 374 := by
  intro q hq
  simp only [path6, pathTrace] at hq
  refine traceFrom_y_le 300 374 (by norm_num) _ _ _ ?_ ?_ ?_ q hq
  · push_cast
    norm_num
  · push_cast
    norm_num
  · intro cmd hcmd
    fin_cases hcmd <;> simp only [cmdYBound] <;> push_cast <;> norm_num

/-- A point at or above a horizontal line that the whole trace stays
strictly below is not in the filled region: the upper half-plane through it
is connected, misses the trace, and is unbounded, so the point's component
of the complement is unbounded. -/
lemma not_in_filled_of_above (tr : Set (ℝ × ℝ)) (c : ℝ) (p : ℝ × ℝ)
    (htr : ∀ q ∈ tr, q.2 < c) (hp : c ≤ p.2) :
    p ∉ filledRegion tr := by
  intro hmem
  rcases hmem with hin | hbdd
  · exact absurd (htr p hin) (by linarith)
  · have hU : {q : ℝ × ℝ | c ≤ q.2} ⊆ trᶜ := by
      intro q hq hqtr
      have := htr q hqtr
      rw [Set.mem_setOf_eq] at hq
      linarith
    have hconv : Convex ℝ {q : ℝ × ℝ | c ≤ q.2} := by
      intro x hx y hy a b ha hb hab
      rw [Set.mem_setOf_eq] at hx hy ⊢
      have h1 : a * c ≤ a * x.2 := mul_le_mul_of_nonneg_left hx ha
      have h2 : b * c ≤ b * y.2 := mul_le_mul_of_nonneg_left hy hb
      have h3 : (a • x + b • y).2 = a * x.2 + b * y.2 := rfl
      have h4 : a * c + b * c = c := by rw [← add_mul, hab, one_mul]
      rw [h3]
      linarith
    have hsub : {q : ℝ × ℝ | c ≤ q.2} ⊆ connectedComponentIn trᶜ p :=
      hconv.isPreconnected.subset_connectedComponentIn hp hU
    have hUb : Bornology.IsBounded {q : ℝ × ℝ | c ≤ q.2} := hbdd.subset hsub
    rw [isBounded_iff_forall_norm_le] at hUb
    obtain ⟨C, hC⟩ := hUb
    have hmem2 : ((0 : ℝ), |c| + |C| + 1) ∈ {q : ℝ × ℝ | c ≤ q.2} := by
      rw [Set.mem_setOf_eq]
      show c ≤ |c| + |C| + 1
      have := le_abs_self c
      have := abs_nonneg C
      linarith
    have hn := hC _ hmem2
    rw [Prod.norm_def] at hn
    have h0 : ‖(0 : ℝ)‖ = 0 := norm_zero
    have h2 : ‖|c| + |C| + 1‖ = |c| + |C| + 1 := by
      rw [Real.norm_eq_abs, abs_of_nonneg (by positivity)]
    rw [h0, h2] at hn
    have hCle : C ≤ |C| := le_abs_self C
    have : |c| + |C| + 1 ≤ C := le_trans (le_max_right _ _) hn
    have habs : (0 : ℝ) ≤ |c| := abs_nonneg c
    linarith

/-- The point (320, 375) is outside the filled mask of the C6 scenario. -/
lemma point6_not_filled : ((320 : ℝ), (375 : ℝ)) ∉ filledRegion (pathTrace path6) :=
  not_in_filled_of_above _ 375 _
    (fun q hq => lt_of_le_of_lt (trace6_y_le q hq) (by norm_num)) le_rfl

/-- The point (320, 375) lies in (the lower part of) the C6 face box. -/
lemma point6_in_box : ((320 : ℝ), (375 : ℝ)) ∈ boxSet det6.box := by
  simp only [boxSet, det6, Set.mem_setOf_eq]
  refine ⟨?_, ?_, ?_, ?_⟩ <;> push_cast <;> norm_num

/-- C6 counterexample: in the stated scenario — face box (200,100,240,280)
and a 17-point jaw outline along the box's lower half (here the horizontal
line y = 300) — the constructed mask path's filled area does not strictly
contain the face box: the box point (320, 375), below the jaw outline, is
outside the filled area, because the whole path trace stays below y = 374
and the point therefore lies in the unbounded component of the trace's
complement. -/
theorem C6_counterexample :
    buildMaskPath det6 = .ok path6 ∧
    ((320 : ℝ), (375 : ℝ)) ∈ boxSet det6.box ∧
    ((320 : ℝ), (375 : ℝ)) ∉ filledRegion (pathTrace path6) :=
  ⟨buildMaskPath_det6, point6_in_box, point6_not_filled⟩

/-- C6 amended: for the 640x480 scenario with face box (200,100,240,280)
and a 17-point jaw outline along the box's lower half, the constructed mask
path does use an envelope of horizontal scale 1.4 and vertical scale 1.6
(extendedWidth 336, extendedHeight 448), and the top of the envelope — the
path's topmost anchor (320, -157.6) — lies above
faceBox.y - 0.2*extendedHeight = 10.4; but the filled area does not
strictly contain the face box: the mask is bounded below by the jaw
outline, so a box point below the jaw such as (320, 375) is outside it. -/
theorem C6_mask_scenario :
    buildMaskPath det6 = .ok path6 ∧
    scaleX = 1.4 ∧ scaleY = 1.6 ∧
    det6.box.width * scaleX = 336 ∧ det6.box.height * scaleY = 448 ∧
    path6[1]? = some (PathCmd.quadTo ⟨166.4, -112.8⟩ ⟨320, -157.6⟩) ∧
    (-157.6 : ℚ) < det6.box.y - 0.2 * (det6.box.height * scaleY) ∧
    ((320 : ℝ), (375 : ℝ)) ∈ boxSet det6.box ∧
    ((320 : ℝ), (375 : ℝ)) ∉ filledRegion (pathTrace path6) := by
  refine ⟨buildMaskPath_det6, rfl, rfl, ?_, ?_, rfl, ?_, point6_in_box, point6_not_filled⟩
  · norm_num [det6, scaleX]
  · norm_num [det6, scaleY]
  · norm_num [det6, scaleY]
